import Mathlib

/-!
Shallow embedding of the `google-docstring-2md` documentation generator.

The Python sources embedded here are:
  * `src/docstring_2tsx/converter.py` (`get_source_line`, `get_source_code`,
    `class_to_data`, `file_to_tsx`),
  * `src/docstring_2tsx/utils/signature_formatter.py` (`get_signature_params`,
    `format_signature`),
  * `src/utils/shared.py` (`collect_module_members`, `build_output_dir`,
    `process_module_file`, `package_to_structure`),
  * `src/docstring_2tsx/__main__.py` (`main`).

Helpers that the converter imports from modules absent from the source tree
(`docstring_2tsx/processor.py`, `utils/signature_formatter.py`, and the
markdown converter `google_docstring_2md/converter.py`) are modelled from the
specification; each such definition carries a doc comment starting with
`Modelled from the spec:`.

Python strings are `String`, `None`-able values are `Option`, dictionaries
that preserve insertion order are association lists, filesystem paths are
lists of path segments, and a raised exception is the `Except.error` branch
of `Except`.
-/

/-- Python exception classes that matter to the control flow of
`process_module_file` / `package_to_structure`. -/
inductive PyErr where
  | importError
  | attributeError
  | osError
  | valueError
  | keyError
  | typeError
  | otherError
  deriving Repr, DecidableEq

/-- Parameter kinds of `inspect.Parameter` (`POSITIONAL_ONLY`,
`POSITIONAL_OR_KEYWORD`, `VAR_POSITIONAL`, `KEYWORD_ONLY`, `VAR_KEYWORD`). -/
inductive ParamKind where
  | positionalOnly
  | positionalOrKeyword
  | varPositional
  | keywordOnly
  | varKeyword
  deriving Repr, DecidableEq

/-- One entry of `inspect.signature(obj).parameters`: the name, the kind, the
declared type when annotated and the default value rendered as a string. -/
structure InspectParam where
  name : String
  kind : ParamKind
  typeAnn : Option String
  default : Option String
  deriving Repr, DecidableEq

/-- What kind of Python object a member is (`inspect.isclass` /
`inspect.isfunction` / anything else). -/
inductive PyKind where
  | cls
  | func
  | other
  deriving Repr, DecidableEq

/-- A live Python object as the converter observes it through reflection:
`__name__`, its kind, `__code__.co_firstlineno` when a `__code__` attribute
exists, `__doc__`, `__module__` when present, `inspect.getsource` when
available, `inspect.signature` (`none` models the `ValueError` raised when the
signature cannot be determined) and the return annotation. -/
structure PyObj where
  name : String
  kind : PyKind
  code : Option Nat
  doc : Option String
  module : Option String
  source : Option String
  sig : Option (List InspectParam)
  returnType : Option String
  deriving Repr, DecidableEq

/-- A live Python module: `__name__`, `__doc__` and the `(name, object)` pairs
that `inspect.getmembers(module)` yields (Python returns them sorted by
name). -/
structure PyModule where
  name : String
  doc : Option String
  members : List (String × PyObj)
  deriving Repr, DecidableEq

/-- One documented argument from a docstring `Args` section: name, the type
declared in the docstring when present, and the description. -/
structure ArgEntry where
  name : String
  typeAnn : Option String
  description : String
  deriving Repr, DecidableEq

/-- Content of one parsed docstring section: either raw text or, for the
`Args` section, a list of documented arguments. -/
inductive DocContent where
  | text (s : String)
  | args (entries : List ArgEntry)
  deriving Repr, DecidableEq

/-- Result of the external Google-docstring parser: an insertion-ordered
mapping from section name (`"Description"`, `"Args"`, `"Returns"`, ...) to
content, modelled as an association list with unique keys. -/
def ParsedDoc : Type := List (String × DocContent)

instance : DecidableEq ParsedDoc := by
  unfold ParsedDoc
  infer_instance

/-- First-match lookup in a `ParsedDoc`, the model of `dict` lookup. -/
def ParsedDoc.find (parsed : ParsedDoc) (key : String) : Option DocContent :=
  match parsed with
  | [] => none
  | (k, v) :: rest => if k = key then some v else ParsedDoc.find rest key

/-- The merged parameter record of the data model: name, type, default and
description, every field but the name optional. -/
structure Parameter where
  name : String
  type : Option String
  default : Option String
  description : Option String
  deriving Repr, DecidableEq

/-! ## String primitives

Kernel-computable models of the Python string primitives the sources use:
`str.split(".")`, `str.startswith("_")` and the lexicographic string order
behind `sorted`. -/

/-- Split a character list at every occurrence of a separator; the result is
never empty and keeps empty groups, as Python's `str.split(sep)` does. -/
def splitCharList (sep : Char) : List Char → List (List Char)
  | [] => [[]]
  | c :: rest =>
    match splitCharList sep rest with
    | [] => [[c]]
    | g :: gs => if c = sep then [] :: g :: gs else (c :: g) :: gs

/-- Python's `module_name.split(".")`. -/
def splitDot (s : String) : List String :=
  (splitCharList '.' s.data).map fun g => String.mk g

/-- Python's `name.startswith("_")`. -/
def startsWithUnderscore (s : String) : Bool :=
  match s.data with
  | [] => false
  | c :: _ => c = '_'

/-- Lexicographic order on character lists by code point. -/
def charListLe : List Char → List Char → Bool
  | [], _ => true
  | _ :: _, [] => false
  | a :: as, b :: bs => if a = b then charListLe as bs else decide (a < b)

/-- Python's `<=` on strings, as `sorted` compares the `(name, obj)` tuples. -/
def strLe (a b : String) : Bool :=
  charListLe a.data b.data

/-! ## `src/docstring_2tsx/utils/signature_formatter.py` -/

namespace signature_formatter

/-- Whether an `inspect` parameter survives the filter
`param.kind not in (param.VAR_POSITIONAL, param.VAR_KEYWORD)`. -/
def keepParam (p : InspectParam) : Bool :=
  !(p.kind == ParamKind.varPositional) && !(p.kind == ParamKind.varKeyword)

/-- `get_signature_params(obj)`: the names of the non-variadic parameters of
`inspect.signature(obj)`, in declaration order; the empty list when the
signature cannot be determined (the `except ValueError` branch). -/
def get_signature_params (obj : PyObj) : List String :=
  match obj.sig with
  | some ps => (ps.filter keepParam).map InspectParam.name
  | none => []

/-- Model of the external `inspect.Signature.__str__` rendering used by
`f"{obj.__name__}{sig}"`: the parameter names joined inside parentheses. -/
def signatureStr (ps : List InspectParam) : String :=
  "(" ++ String.intercalate ", " (ps.map InspectParam.name) ++ ")"

/-- `format_signature(obj)`: `f"{obj.__name__}{sig}"` when the signature is
available, the bare `obj.__name__` on the `except ValueError` branch. -/
def format_signature (obj : PyObj) : String :=
  match obj.sig with
  | some ps => obj.name ++ signatureStr ps
  | none => obj.name

end signature_formatter

/-! ## Markdown-renderer helpers (absent from src/, modelled from the spec) -/

/-- Escaping of one character, the unit step of the escaping rule. -/
def escapeChar (c : Char) : String :=
  if c = '<' then "\\<"
  else if c = '>' then "\\>"
  else if c = '=' then "\\="
  else String.singleton c

/-- Character-list form of the escaping pass. -/
def escapeData : List Char → List Char
  | [] => []
  | c :: cs => (escapeChar c).data ++ escapeData cs

/-- Modelled from the spec: the string-level body of
`_escape_mdx_special_chars` from `google_docstring_2md/converter.py` (absent
from src/): replace every literal `<` with `\<`, every `>` with `\>` and every
`=` with `\=`, leaving every other character unchanged. -/
def escapeString (s : String) : String :=
  String.mk (escapeData s.data)

/-- Modelled from the spec: `_escape_mdx_special_chars(text)` from
`google_docstring_2md/converter.py` (absent from src/): `None` input yields
`None` unmodified, otherwise the escaping rule is applied. -/
def escape_special : Option String → Option String
  | none => none
  | some s => some (escapeString s)

/-- Modelled from the spec: `format_section_content(name, content)` from
`google_docstring_2md/converter.py` (absent from src/): wrap the content in a
fenced code block, tagged `python` exactly for an `"Examples"` section and
bare otherwise, with the content kept verbatim inside the fence. -/
def format_section_content (title content : String) : String :=
  if title = "Examples" then "```python\n" ++ content ++ "\n```"
  else "```\n" ++ content ++ "\n```"

/-! ## `docstring_2tsx/processor.py` helpers (absent from src/, modelled) -/

/-- Modelled from the spec: `process_description(parsed)` from
`docstring_2tsx/processor.py` (absent from src/): the text of the parsed
`"Description"` section when present, otherwise unset. -/
def process_description (parsed : ParsedDoc) : Option String :=
  match parsed.find "Description" with
  | some (DocContent.text s) => some s
  | some (DocContent.args _) => none
  | none => none

/-- The entries of the parsed `"Args"` section, empty when absent. -/
def docArgs (parsed : ParsedDoc) : List ArgEntry :=
  match parsed.find "Args" with
  | some (DocContent.args es) => es
  | some (DocContent.text _) => []
  | none => []

/-- Modelled from the spec: `build_params_data(params, parsed)` from
`docstring_2tsx/processor.py` (absent from src/): for each signature
parameter, in order, look up a matching `Args` entry by name; if found attach
its description and let a type declared in the docstring override the
introspected type; undocumented signature parameters keep type/default with no
description; documented names absent from the signature yield nothing. -/
def build_params_data (params : List Parameter) (parsed : ParsedDoc) : List Parameter :=
  params.map fun p =>
    match (docArgs parsed).find? (fun a => a.name == p.name) with
    | some a =>
        { name := p.name
          type := match a.typeAnn with
            | some t => some t
            | none => p.type
          default := p.default
          description := some a.description }
    | none =>
        { name := p.name, type := p.type, default := p.default, description := none }

/-- One auxiliary docstring section of a member record. -/
structure SectionData where
  title : String
  content : String
  deriving Repr, DecidableEq

/-- Modelled from the spec: `format_section_data(section, content)` from
`docstring_2tsx/processor.py` (absent from src/): a section becomes a
`SectionData` entry, skipped when formatting yields empty content. -/
def format_section_data (title : String) (c : DocContent) : Option SectionData :=
  match c with
  | DocContent.text s => if s = "" then none else some { title := title, content := s }
  | DocContent.args _ => none

/-- Modelled from the spec: the result shape of the rich
`format_signature(obj, params)` that `converter.py` imports from
`utils/signature_formatter.py` (absent from src/): the object's name, its
parameter list and the return type (`signature_data.name` / `.params` /
`.return_type` at the use site). -/
structure SignatureData where
  name : String
  params : List Parameter
  returnType : Option String
  deriving Repr, DecidableEq

/-- Modelled from the spec: the rich `get_signature_params(obj)` that
`converter.py` imports from `utils/signature_formatter.py` (absent from src/):
the Signature Extractor contract `extract(obj)` — ordered parameters carrying
name, declared type and default, description unset, variadic catch-alls
excluded, and the empty list when introspection fails. -/
def extract_params (obj : PyObj) : List Parameter :=
  match obj.sig with
  | some ps =>
      (ps.filter signature_formatter.keepParam).map fun p =>
        { name := p.name, type := p.typeAnn, default := p.default, description := none }
  | none => []

/-- Modelled from the spec: the rich `format_signature(obj, params)` from
`utils/signature_formatter.py` (absent from src/), assembling the
`SignatureData` consumed at `converter.py` lines 116-127. -/
def format_signature_data (obj : PyObj) (params : List Parameter) : SignatureData :=
  { name := obj.name, params := params, returnType := obj.returnType }

/-! ## `src/docstring_2tsx/converter.py` -/

/-- `get_source_line(obj)`: `obj.__code__.co_firstlineno`, or `1` on the
`except AttributeError` branch when the object has no `__code__`. -/
def get_source_line (obj : PyObj) : Nat :=
  match obj.code with
  | some n => n
  | none => 1

/-- `get_source_code(obj)`: `inspect.getsource(obj)` or `None` when the source
is unavailable (the `except (TypeError, OSError)` branch). -/
def get_source_code (obj : PyObj) : Option String :=
  obj.source

/-- Python truthiness of a `str | None` value: `False` for `None` and for the
empty string. -/
def truthy : Option String → Bool
  | some s => !(s == "")
  | none => false

/-- The structured record `class_to_data` returns for one member. The four
trailing `Option` fields model the keys that lines 132-140 of `converter.py`
add only when the value is truthy. -/
structure MemberData where
  name : String
  type : String
  signature : SignatureData
  source_line : Nat
  description : Option String
  params : Option (List Parameter)
  sections : Option (List SectionData)
  source_code : Option String
  deriving Repr, DecidableEq

/-- `class_to_data(obj)`: extract parameters, signature data, source code and
line, parse the docstring (an exception from the parser is logged and treated
as an empty parse), then assemble the member record, adding the optional
fields only when truthy. The external `parse_google_docstring` is the `parse`
argument; `Except.error` models a raised exception. -/
def class_to_data (parse : String → Except Unit ParsedDoc) (obj : PyObj) : MemberData :=
  let params := extract_params obj
  let signature_data := format_signature_data obj params
  let source_code := get_source_code obj
  let source_line := get_source_line obj
  let docstring := obj.doc.getD ""
  let parsed : ParsedDoc :=
    match parse docstring with
    | Except.ok p => p
    | Except.error _ => []
  let description := process_description parsed
  let params_data := build_params_data params parsed
  let sections := parsed.filterMap fun pr =>
    if pr.1 = "Description" ∨ pr.1 = "Args" then none
    else format_section_data pr.1 pr.2
  { name := obj.name
    type := if obj.kind = PyKind.cls then "class" else "function"
    signature := signature_data
    source_line := source_line
    description := if truthy description then description else none
    params := if params_data.isEmpty then none else some params_data
    sections := if sections.isEmpty then none else some sections
    source_code := if truthy source_code then source_code else none }

/-! ## `src/utils/shared.py`: member collection -/

/-- `collect_module_members(module)`: split `inspect.getmembers(module)` into
classes and functions, skipping every name that starts with an underscore and
keeping only objects whose `__module__` equals the scanned module's name. -/
def collect_module_members (m : PyModule) :
    List (String × PyObj) × List (String × PyObj) :=
  let kept := m.members.filter fun pr =>
    !(startsWithUnderscore pr.1) && (pr.2.module == some m.name)
  (kept.filter fun pr => pr.2.kind == PyKind.cls,
   kept.filter fun pr => pr.2.kind == PyKind.func)

/-! ## `src/docstring_2tsx/converter.py`: module conversion -/

/-- Insertion of one `(name, object)` pair into a name-sorted list, the unit
step of Python's `sorted` on `(name, obj)` tuples. -/
def insertByName (x : String × PyObj) :
    List (String × PyObj) → List (String × PyObj)
  | [] => [x]
  | y :: ys => if strLe x.1 y.1 then x :: y :: ys else y :: insertByName x ys

/-- Python's `sorted(classes + functions)`: sort the pairs by name (names are
unique within a module namespace, so the tuple comparison never reaches the
objects). -/
def sortByName (xs : List (String × PyObj)) : List (String × PyObj) :=
  xs.foldr insertByName []

/-- The `module_data` dictionary built by `file_to_tsx`: note that the
`description` key is always present, `None`-valued when the module docstring
gave no description. -/
structure ModuleData where
  moduleName : String
  description : Option String
  members : List MemberData
  deriving Repr, DecidableEq

/-- `file_to_tsx(module, module_name)` up to the `module_data` value: collect
members, convert each member in name order, parse the module docstring (an
exception is logged and leaves the description as `None`), and assemble the
module record. -/
def file_to_tsx_data (parse : String → Except Unit ParsedDoc)
    (m : PyModule) (module_name : String) : ModuleData :=
  let collected := collect_module_members m
  let members_data :=
    (sortByName (collected.1 ++ collected.2)).map fun pr => class_to_data parse pr.2
  let module_docstring := m.doc.getD ""
  let module_description :=
    match parse module_docstring with
    | Except.ok parsed => process_description parsed
    | Except.error _ => none
  { moduleName := module_name
    description := module_description
    members := members_data }

/-! ## JSON serialization (`json.dumps(module_data, indent=2)`) -/

/-- JSON values, the image of `json.dumps`: what matters for the claims is
which keys an object carries, so the tree is modelled and the final
2-space-indented rendering is not. -/
inductive Json where
  | null
  | str (s : String)
  | num (n : Nat)
  | arr (xs : List Json)
  | obj (kvs : List (String × Json))

/-- A `str | None` Python value serialized to JSON: `null` for `None`. -/
def optStrJson : Option String → Json
  | some s => Json.str s
  | none => Json.null

/-- A parameter dictionary as serialized inside `signature.params`
(`converter.py` lines 118-125): all four keys present, `null` for `None`. -/
def paramToJson (p : Parameter) : Json :=
  Json.obj [("name", Json.str p.name), ("type", optStrJson p.type),
            ("default", optStrJson p.default), ("description", optStrJson p.description)]

/-- The `signature` dictionary of a member record (`converter.py` lines
116-127). -/
def sigToJson (sd : SignatureData) : Json :=
  Json.obj [("name", Json.str sd.name),
            ("params", Json.arr (sd.params.map paramToJson)),
            ("return_type", optStrJson sd.returnType)]

/-- A section entry serialized to JSON. -/
def sectionToJson (s : SectionData) : Json :=
  Json.obj [("title", Json.str s.title), ("content", Json.str s.content)]

/-- A member record serialized to JSON: the four mandatory keys in dictionary
insertion order, then each optional key only when `class_to_data` added it. -/
def memberDataToJson (md : MemberData) : Json :=
  Json.obj
    ([("name", Json.str md.name), ("type", Json.str md.type),
      ("signature", sigToJson md.signature), ("source_line", Json.num md.source_line)]
     ++ (match md.description with
         | some d => [("description", Json.str d)]
         | none => [])
     ++ (match md.params with
         | some ps => [("params", Json.arr (ps.map paramToJson))]
         | none => [])
     ++ (match md.sections with
         | some ss => [("sections", Json.arr (ss.map sectionToJson))]
         | none => [])
     ++ (match md.source_code with
         | some sc => [("source_code", Json.str sc)]
         | none => []))

/-- The `module_data` dictionary serialized to JSON (`converter.py` lines
175-182): `moduleName`, then `description` — a key that is always present and
is `null` when the description is `None` — then `members`. -/
def moduleDataToJson (m : ModuleData) : Json :=
  Json.obj [("moduleName", Json.str m.moduleName),
            ("description", optStrJson m.description),
            ("members", Json.arr (m.members.map memberDataToJson))]

/-- The keys of a JSON object, `[]` on non-objects. -/
def Json.objKeys : Json → List String
  | Json.obj kvs => kvs.map Prod.fst
  | _ => []

/-- The value stored under a key of a JSON object, `none` on non-objects. -/
def Json.objLookup : Json → String → Option Json
  | Json.obj kvs, key => (kvs.find? fun kv => kv.1 == key).map Prod.snd
  | _, _ => none

/-! ## `src/utils/shared.py`: output paths and the per-package loop -/

/-- `build_output_dir(config, module_name, file_name)`: split the dotted
module name, drop the leading package component, drop a trailing component
equal to the file name, drop every `__init__` component, and join under the
output directory with the file name appended. Paths are lists of segments;
joining the empty segment list leaves the path unchanged, as
`Path / "" == Path` does in `pathlib`. -/
def build_output_dir (output_dir : List String) (module_name file_name : String) :
    List String :=
  let parts := splitDot module_name
  if parts.length > 1 then
    let tail0 := parts.drop 1
    let tail1 := if tail0.getLast? == some file_name then tail0.dropLast else tail0
    let tail2 := tail1.filter fun part => part != "__init__"
    output_dir ++ tail2 ++ [file_name]
  else
    output_dir ++ [file_name]

/-- The first dotted name of minimal length, Python's
`min(modules, key=lambda x: len(x[1]))` (ties keep the earlier element). -/
def shortestName : List String → Option String
  | [] => none
  | n :: ns => some (ns.foldl (fun best x => if x.length < best.length then x else best) n)

/-- Whether `process_module_file` catches an exception:
`except (ImportError, AttributeError, OSError, ValueError)`. -/
def caughtErr : PyErr → Bool
  | PyErr.importError => true
  | PyErr.attributeError => true
  | PyErr.osError => true
  | PyErr.valueError => true
  | _ => false

/-- `process_module_file(file_path, modules, converter_func, output_dir)`:
`Except.ok none` is Python's `return False` (no file written — `__init__`
stems, and caught exceptions); `Except.ok (some (path, content))` is
`return True` after writing `content` to `path`, where `path` ends in
`page.tsx` under `build_output_dir`; `Except.error e` is an exception
escaping the `except (ImportError, AttributeError, OSError, ValueError)`
clause. The fallible body — the `converter_func(module, module_name)` call
and the I/O around it — is the `conv` argument; `min` over an empty module
list raises `ValueError`, which the clause catches. -/
def process_module_file (file_stem : String) (modules : List String)
    (output_dir : List String) (conv : String → Except PyErr String) :
    Except PyErr (Option (List String × String)) :=
  if file_stem = "__init__" then Except.ok none
  else
    match shortestName modules with
    | none => Except.ok none
    | some module_name =>
      match conv module_name with
      | Except.ok content =>
          Except.ok (some (build_output_dir output_dir module_name file_stem ++
            ["page.tsx"], content))
      | Except.error e => if caughtErr e then Except.ok none else Except.error e

/-- One module file of a package run: the file's stem, the dotted names of the
modules backed by the file, and the file's conversion behaviour. -/
structure FileTask where
  file_stem : String
  modules : List String
  conv : String → Except PyErr String

/-- The `for file_path, file_modules in module_groups.items()` loop inside
`package_to_structure`, returning the files written. An exception escaping
`process_module_file` aborts the loop: the surrounding `except Exception`
logs it and returns, so the remaining files are not processed. -/
def package_files_loop (output_dir : List String) : List FileTask → List (List String × String)
  | [] => []
  | t :: ts =>
    match process_module_file t.file_stem t.modules output_dir t.conv with
    | Except.ok none => package_files_loop output_dir ts
    | Except.ok (some written) => written :: package_files_loop output_dir ts
    | Except.error _ => []

/-- `package_to_structure(config)`: the files written by the per-file loop;
every exception is swallowed by the top-level `except Exception`, so the
function always returns. -/
def package_to_structure (output_dir : List String) (tasks : List FileTask) :
    List (List String × String) :=
  package_files_loop output_dir tasks

/-- `main()` in `__main__.py`: runs `package_to_structure` through
`generate_documentation`, ignores its result and returns `None`, so the
process exit status is `0` whatever happened per file. -/
def main_exit_code (output_dir : List String) (tasks : List FileTask) : Nat :=
  let _ := package_to_structure output_dir tasks
  0

/-! ## Concrete inputs used by the verification -/

def c1_params : List Parameter :=
  [{ name := "a", type := some "int", default := none, description := none },
   { name := "b", type := none, default := some "5", description := none }]

def c1_parsed : ParsedDoc :=
  [("Args", DocContent.args
    [{ name := "a", typeAnn := some "str", description := "first arg" },
     { name := "ghost", typeAnn := none, description := "not in signature" }])]

def c2_fail_parse : String → Except Unit ParsedDoc := fun _ => Except.error ()

def c2_obj : PyObj :=
  { name := "f", kind := PyKind.func, code := some 7, doc := some "broken doc",
    module := some "m",
    source := none,
    sig := some [{ name := "x", kind := ParamKind.positionalOrKeyword,
                   typeAnn := some "int", default := none }],
    returnType := none }

def c2_module : PyModule :=
  { name := "m", doc := some "broken doc", members := [("f", c2_obj)] }

def c3_ok_task : FileTask :=
  { file_stem := "m2", modules := ["pkg.m2"], conv := fun _ => Except.ok "Y" }

def c3_bad_task : FileTask :=
  { file_stem := "m1", modules := ["pkg.m1"],
    conv := fun _ => Except.error PyErr.osError }

def c7_obj_nosig : PyObj :=
  { name := "builtin_fn", kind := PyKind.func, code := none, doc := none,
    module := none, source := none, sig := none, returnType := none }

def c7_params : List InspectParam :=
  [{ name := "x", kind := ParamKind.positionalOrKeyword, typeAnn := some "int", default := none },
   { name := "args", kind := ParamKind.varPositional, typeAnn := none, default := none },
   { name := "y", kind := ParamKind.keywordOnly, typeAnn := none, default := some "3" },
   { name := "kwargs", kind := ParamKind.varKeyword, typeAnn := none, default := none }]

def c7_obj_sig : PyObj :=
  { name := "fn", kind := PyKind.func, code := some 10, doc := none,
    module := some "m", source := none, sig := some c7_params, returnType := none }

def c8_private_fn : PyObj :=
  { name := "_hidden", kind := PyKind.func, code := some 3, doc := some "doc",
    module := some "m", source := none, sig := some [], returnType := none }

def c8_public_fn : PyObj :=
  { name := "visible", kind := PyKind.func, code := some 9, doc := none,
    module := some "m", source := none, sig := some [], returnType := none }

def c8_module : PyModule :=
  { name := "m", doc := none,
    members := [("_hidden", c8_private_fn), ("visible", c8_public_fn)] }

def c9_parse : String → Except Unit ParsedDoc :=
  fun _ => Except.ok [("Returns", DocContent.text "int")]

def c9_obj : PyObj :=
  { name := "g", kind := PyKind.func, code := some 2, doc := some "ret only",
    module := some "m", source := none, sig := some [], returnType := none }

def c9_md : MemberData :=
  { name := "g", type := "function",
    signature := { name := "g", params := [], returnType := none },
    source_line := 2, description := none, params := none, sections := none,
    source_code := none }

def c9_mdta : ModuleData :=
  { moduleName := "m", description := none, members := [] }

def c10_class_obj : PyObj :=
  { name := "TestClass", kind := PyKind.cls, code := none, doc := some "A class.",
    module := some "m", source := some "class TestClass: ...", sig := some [],
    returnType := none }

/-! ## Theorems -/

lemma escapeData_eq_flatMap (cs : List Char) :
    escapeData cs = cs.flatMap fun c => (escapeChar c).data := by
  induction cs with
  | nil => rfl
  | cons c rest ih => simp [escapeData, ih]

lemma escapeChar_data (c : Char) :
    (escapeChar c).data =
      if c = '<' then ['\\', '<']
      else if c = '>' then ['\\', '>']
      else if c = '=' then ['\\', '='] else [c] := by
  unfold escapeChar
  split_ifs <;> rfl

lemma insertByName_length (x : String × PyObj) (xs : List (String × PyObj)) :
    (insertByName x xs).length = xs.length + 1 := by
  induction xs with
  | nil => rfl
  | cons y ys ih =>
    simp only [insertByName]
    split_ifs <;> simp [ih]

lemma sortByName_length (xs : List (String × PyObj)) :
    (sortByName xs).length = xs.length := by
  induction xs with
  | nil => rfl
  | cons x ys ih => simp [sortByName, insertByName_length] at ih ⊢; omega

lemma build_params_data_nil (params : List Parameter) :
    build_params_data params [] = params.map fun p =>
      { name := p.name, type := p.type, default := p.default, description := none } := by
  simp [build_params_data, docArgs, ParsedDoc.find]

/-- C1: the merged parameter list keeps exactly the signature parameters, in
order; a matching `Args` entry contributes its description and its declared
type overrides the introspected one; unmatched signature parameters keep
type/default with no description; documented names absent from the signature
contribute nothing. -/
theorem c1_parameter_merge (params : List Parameter) (parsed : ParsedDoc) :
    (build_params_data params parsed).map Parameter.name = params.map Parameter.name ∧
    (∀ q ∈ build_params_data params parsed, ∃ p ∈ params, q.name = p.name) ∧
    (∀ (i : ℕ) (p : Parameter), params[i]? = some p →
      ∃ q, (build_params_data params parsed)[i]? = some q ∧
        q.name = p.name ∧ q.default = p.default ∧
        (∀ a, (docArgs parsed).find? (fun e => e.name == p.name) = some a →
          q.description = some a.description ∧
          (∀ t, a.typeAnn = some t → q.type = some t) ∧
          (a.typeAnn = none → q.type = p.type)) ∧
        ((docArgs parsed).find? (fun e => e.name == p.name) = none →
          q.description = none ∧ q.type = p.type)) := by
  have hnames : (build_params_data params parsed).map Parameter.name =
      params.map Parameter.name := by
    simp only [build_params_data, List.map_map]
    refine List.map_congr_left fun p _ => ?_
    cases hfind : (docArgs parsed).find? (fun e => e.name == p.name) <;>
      simp [Function.comp, hfind]
  refine ⟨hnames, ?_, ?_⟩
  · intro q hq
    have hmem : q.name ∈ params.map Parameter.name := by
      rw [← hnames]
      exact List.mem_map_of_mem Parameter.name hq
    obtain ⟨p, hp, hpn⟩ := List.mem_map.mp hmem
    exact ⟨p, hp, hpn.symm⟩
  · intro i p hp
    cases hfind : (docArgs parsed).find? (fun e => e.name == p.name) with
    | none =>
      have hout : (build_params_data params parsed)[i]? =
          some { name := p.name, type := p.type, default := p.default,
                 description := none } := by
        simp [build_params_data, List.getElem?_map, hp, hfind]
      refine ⟨_, hout, rfl, rfl, ?_, fun _ => ⟨rfl, rfl⟩⟩
      intro a ha
      simp [hfind] at ha
    | some a =>
      have hout : (build_params_data params parsed)[i]? =
          some { name := p.name,
                 type := match a.typeAnn with
                   | some t => some t
                   | none => p.type,
                 default := p.default, description := some a.description } := by
        simp [build_params_data, List.getElem?_map, hp, hfind]
      refine ⟨_, hout, rfl, rfl, ?_, ?_⟩
      · intro a' ha'
        injection ha' with haa
        subst haa
        refine ⟨rfl, fun t ht => by simp [ht], fun h0 => by simp [h0]⟩
      · intro hnone
        simp [hfind] at hnone

/-- C1 witness: the merge theorem applied to a two-parameter signature with
one documented parameter and one docstring-only entry. -/
theorem c1_parameter_merge_witness :
    (build_params_data c1_params c1_parsed).map Parameter.name =
      c1_params.map Parameter.name ∧
    ∃ q, (build_params_data c1_params c1_parsed)[0]? = some q ∧
      q.name = "a" ∧ q.default = none ∧
      (∀ a, (docArgs c1_parsed).find? (fun e => e.name == "a") = some a →
        q.description = some a.description ∧
        (∀ t, a.typeAnn = some t → q.type = some t) ∧
        (a.typeAnn = none → q.type = some "int")) ∧
      ((docArgs c1_parsed).find? (fun e => e.name == "a") = none →
        q.description = none ∧ q.type = some "int") :=
  ⟨(c1_parameter_merge c1_params c1_parsed).1,
   (c1_parameter_merge c1_params c1_parsed).2.2 0
     { name := "a", type := some "int", default := none, description := none } rfl⟩

/-- C2: when docstring parsing raises, the member record is built as if the
parser returned no sections — no description, no documented parameter
descriptions, no auxiliary sections — the member is still emitted, and a
failing module docstring likewise leaves the module description unset. -/
theorem c2_docstring_parse_failure (parse : String → Except Unit ParsedDoc)
    (obj : PyObj) (m : PyModule) (mname : String) :
    (parse (obj.doc.getD "") = Except.error () →
      (class_to_data parse obj).description = none ∧
      (class_to_data parse obj).sections = none ∧
      (∀ ps, (class_to_data parse obj).params = some ps →
        ∀ q ∈ ps, q.description = none)) ∧
    (parse (m.doc.getD "") = Except.error () →
      (file_to_tsx_data parse m mname).description = none) ∧
    (file_to_tsx_data parse m mname).members.length =
      ((collect_module_members m).1 ++ (collect_module_members m).2).length := by
  refine ⟨?_, ?_, ?_⟩
  · intro h
    refine ⟨?_, ?_, ?_⟩
    · simp [class_to_data, h, process_description, ParsedDoc.find, truthy]
    · simp [class_to_data, h]
    · intro ps hps
      simp only [class_to_data, h, build_params_data_nil] at hps
      split at hps
      · cases hps
      · injection hps with hps'
        intro q hq
        rw [← hps'] at hq
        obtain ⟨p, _, hpq⟩ := List.mem_map.mp hq
        rw [← hpq]
  · intro h
    simp [file_to_tsx_data, h]
  · simp [file_to_tsx_data, sortByName_length]

/-- C2 witness: a parser that always raises leaves a concrete member record
without description and sections, and leaves the module description unset. -/
theorem c2_docstring_parse_failure_witness :
    ((class_to_data c2_fail_parse c2_obj).description = none ∧
     (class_to_data c2_fail_parse c2_obj).sections = none ∧
     (∀ ps, (class_to_data c2_fail_parse c2_obj).params = some ps →
        ∀ q ∈ ps, q.description = none)) ∧
    (file_to_tsx_data c2_fail_parse c2_module "m").description = none :=
  ⟨(c2_docstring_parse_failure c2_fail_parse c2_obj c2_module "m").1 rfl,
   (c2_docstring_parse_failure c2_fail_parse c2_obj c2_module "m").2.1 rfl⟩

/-- C3 counterexample: a file whose conversion raises `KeyError` (not in the
caught tuple) aborts the loop at the package level, so a later file that alone
would produce output produces none — yet the claim promises every other file
still completes. -/
theorem c3_counterexample :
    package_to_structure ["out"]
      [{ file_stem := "m1", modules := ["pkg.m1"],
         conv := fun _ => Except.error PyErr.keyError },
       { file_stem := "m2", modules := ["pkg.m2"],
         conv := fun _ => Except.ok "Y" }] = [] ∧
    package_to_structure ["out"]
      [{ file_stem := "m2", modules := ["pkg.m2"],
         conv := fun _ => Except.ok "Y" }] =
      [(["out", "m2", "page.tsx"], "Y")] :=
  ⟨rfl, rfl⟩

/-- C3 (amended): a file failing with one of the caught exception classes
(`ImportError`/`AttributeError`/`OSError`/`ValueError`) is skipped and the
remaining files still run; any other exception escapes `process_module_file`
and aborts the remaining files at the package level; the exit status is `0` in
every case. -/
theorem c3_per_file_failure (out : List String) (t : FileTask) (ts : List FileTask) :
    (process_module_file t.file_stem t.modules out t.conv = Except.ok none →
      package_to_structure out (t :: ts) = package_to_structure out ts) ∧
    (∀ w, process_module_file t.file_stem t.modules out t.conv = Except.ok (some w) →
      package_to_structure out (t :: ts) = w :: package_to_structure out ts) ∧
    (∀ e, process_module_file t.file_stem t.modules out t.conv = Except.error e →
      caughtErr e = false ∧ package_to_structure out (t :: ts) = []) ∧
    (∀ mn e, t.file_stem ≠ "__init__" → shortestName t.modules = some mn →
      t.conv mn = Except.error e → caughtErr e = true →
      process_module_file t.file_stem t.modules out t.conv = Except.ok none) ∧
    main_exit_code out (t :: ts) = 0 := by
  refine ⟨?_, ?_, ?_, ?_, rfl⟩
  · intro h
    simp [package_to_structure, package_files_loop, h]
  · intro w h
    simp [package_to_structure, package_files_loop, h]
  · intro e h
    have hcaught : caughtErr e = false := by
      unfold process_module_file at h
      by_cases hstem : t.file_stem = "__init__"
      · rw [if_pos hstem] at h
        cases h
      · rw [if_neg hstem] at h
        cases hmn : shortestName t.modules with
        | none =>
          simp only [hmn] at h
          cases h
        | some mn =>
          simp only [hmn] at h
          cases hc : t.conv mn with
          | ok c =>
            simp only [hc] at h
            cases h
          | error e' =>
            simp only [hc] at h
            by_cases hce : caughtErr e'
            · rw [if_pos hce] at h
              cases h
            · rw [if_neg hce] at h
              injection h with h1
              rw [← h1]
              exact Bool.not_eq_true _ ▸ (by simpa using hce)
    refine ⟨hcaught, ?_⟩
    simp [package_to_structure, package_files_loop, h]
  · intro mn e hstem hmn hc hce
    simp [process_module_file, hstem, hmn, hc, hce]

/-- C3 witness: a caught `OSError` skips one file while the next still writes
its output, and the exit code is `0`. -/
theorem c3_per_file_failure_witness :
    package_to_structure ["out"] [c3_bad_task, c3_ok_task] =
      package_to_structure ["out"] [c3_ok_task] ∧
    main_exit_code ["out"] [c3_bad_task, c3_ok_task] = 0 :=
  ⟨(c3_per_file_failure ["out"] c3_bad_task [c3_ok_task]).1 rfl,
   (c3_per_file_failure ["out"] c3_bad_task [c3_ok_task]).2.2.2.2⟩

/-- C4 counterexample: the module `pkg.__init__` (file stem `__init__`) is
skipped before any path is derived — `process_module_file` returns with no
output file written, contradicting "still producing an output file". -/
theorem c4_counterexample :
    process_module_file "__init__" ["pkg.__init__"] ["out"]
      (fun _ => Except.ok "content") = Except.ok none := rfl

/-- C4 (amended): `pkg.sub.mod` under output root `out` resolves to
`out/sub/mod/page.tsx`; every written file sits at
`build_output_dir ++ [page.tsx]` for the shortest module name; interior
`__init__` segments are collapsed by `build_output_dir`; and a file whose stem
is `__init__` is skipped with no output at all. -/
theorem c4_output_path (out : List String) (conv : String → Except PyErr String)
    (content : String) :
    (conv "pkg.sub.mod" = Except.ok content →
      process_module_file "mod" ["pkg.sub.mod"] out conv =
        Except.ok (some (out ++ ["sub", "mod", "page.tsx"], content))) ∧
    (∀ stem modules w,
      process_module_file stem modules out conv = Except.ok (some w) →
      ∃ mn, shortestName modules = some mn ∧ stem ≠ "__init__" ∧
        w.1 = build_output_dir out mn stem ++ ["page.tsx"]) ∧
    (∀ mname fname, ∀ seg ∈ (build_output_dir out mname fname).drop out.length,
      seg = fname ∨ seg ≠ "__init__") ∧
    (∀ modules, process_module_file "__init__" modules out conv = Except.ok none) := by
  refine ⟨?_, ?_, ?_, ?_⟩
  · intro h
    have hb : build_output_dir out "pkg.sub.mod" "mod" = out ++ ["sub"] ++ ["mod"] := rfl
    simp [process_module_file, shortestName, h, hb]
  · intro stem modules w h
    unfold process_module_file at h
    by_cases hstem : stem = "__init__"
    · rw [if_pos hstem] at h
      cases h
    · rw [if_neg hstem] at h
      cases hmn : shortestName modules with
      | none =>
        simp only [hmn] at h
        cases h
      | some mn =>
        simp only [hmn] at h
        cases hc : conv mn with
        | ok c =>
          simp only [hc] at h
          injection h with h1
          injection h1 with h2
          exact ⟨mn, rfl, hstem, by rw [← h2]⟩
        | error e =>
          simp only [hc] at h
          by_cases hce : caughtErr e
          · rw [if_pos hce] at h
            cases h
          · rw [if_neg hce] at h
            cases h
  · intro mname fname seg hseg
    have hbd : build_output_dir out mname fname =
        if (splitDot mname).length > 1 then
          out ++ ((if ((splitDot mname).drop 1).getLast? == some fname
                   then ((splitDot mname).drop 1).dropLast
                   else (splitDot mname).drop 1).filter fun part => part != "__init__") ++
            [fname]
        else out ++ [fname] := rfl
    rw [hbd] at hseg
    split at hseg
    · rw [List.append_assoc, List.drop_left] at hseg
      rcases List.mem_append.mp hseg with hmem | hmem
      · exact Or.inr (by simpa using (List.mem_filter.mp hmem).2)
      · exact Or.inl (by simpa using hmem)
    · rw [List.drop_left] at hseg
      exact Or.inl (by simpa using hseg)
  · intro modules
    simp [process_module_file]

/-- C4 witness: the amended path derivation applied to `pkg.sub.mod` with a
successful conversion. -/
theorem c4_output_path_witness :
    process_module_file "mod" ["pkg.sub.mod"] ["out"]
      (fun _ => Except.ok "content") =
      Except.ok (some (["out"] ++ ["sub", "mod", "page.tsx"], "content")) :=
  (c4_output_path ["out"] (fun _ => Except.ok "content") "content").1 rfl

/-- C5: `escape_special` maps `None` to `None` and the empty string to the
empty string, and on any other text replaces every `<` by `\<`, every `>` by
`\>` and every `=` by `\=`, leaving every other character unchanged. -/
theorem c5_escape_special_rule :
    escape_special none = none ∧
    escape_special (some "") = some "" ∧
    (∀ s : String, escape_special (some s) =
      some (String.mk (s.data.flatMap fun c =>
        if c = '<' then ['\\', '<']
        else if c = '>' then ['\\', '>']
        else if c = '=' then ['\\', '='] else [c]))) ∧
    (∀ s : String, (∀ c ∈ s.data, c ≠ '<' ∧ c ≠ '>' ∧ c ≠ '=') →
      escape_special (some s) = some s) := by
  refine ⟨rfl, rfl, ?_, ?_⟩
  · intro s
    simp only [escape_special, escapeString, escapeData_eq_flatMap]
    congr 2
    exact List.flatMap_congr fun c _ => escapeChar_data c
  · intro s h
    have key : ∀ cs : List Char, (∀ c ∈ cs, c ≠ '<' ∧ c ≠ '>' ∧ c ≠ '=') →
        escapeData cs = cs := by
      intro cs
      induction cs with
      | nil => exact fun _ => rfl
      | cons c rest ih =>
        intro hall
        have hc := hall c (List.mem_cons_self c rest)
        simp [escapeData, escapeChar, hc.1, hc.2.1, hc.2.2, String.singleton,
          ih fun d hd => hall d (List.mem_cons_of_mem c hd)]
    simp only [escape_special, escapeString, Option.some.injEq, key s.data h]

/-- C5 witness: the escaping rule evaluated at `None`, the empty string and a
string without special characters. -/
theorem c5_escape_special_rule_witness :
    escape_special (some "normal text") = some "normal text" :=
  c5_escape_special_rule.2.2.2 "normal text" (by decide)

/-- C6: `format_section_content` wraps the content in a fenced code block,
tagged `python` exactly when the section is `"Examples"` and bare otherwise,
with the content preserved verbatim (no escaping) inside the fence. -/
theorem c6_format_section_content (title content : String) :
    (title = "Examples" →
      format_section_content title content = "```python\n" ++ content ++ "\n```") ∧
    (title ≠ "Examples" →
      format_section_content title content = "```\n" ++ content ++ "\n```") := by
  constructor
  · intro h
    simp [format_section_content, h]
  · intro h
    simp [format_section_content, h]

/-- C6 witness: the `"Examples"` fence is tagged `python`, the `"Notes"` fence
is bare and its content keeps `<` unescaped. -/
theorem c6_format_section_content_witness :
    format_section_content "Examples" "some code" = "```python\n" ++ "some code" ++ "\n```" ∧
    format_section_content "Notes" "some <text>" = "```\n" ++ "some <text>" ++ "\n```" :=
  ⟨(c6_format_section_content "Examples" "some code").1 rfl,
   (c6_format_section_content "Notes" "some <text>").2 (by decide)⟩

/-- C7: when the signature cannot be determined, `get_signature_params`
returns the empty list and `format_signature` returns the bare name; when it
is available, `get_signature_params` returns the non-variadic parameter names
in declaration order. -/
theorem c7_signature_introspection (obj : PyObj) :
    (obj.sig = none →
      signature_formatter.get_signature_params obj = [] ∧
      signature_formatter.format_signature obj = obj.name) ∧
    (∀ ps, obj.sig = some ps →
      List.Sublist (signature_formatter.get_signature_params obj)
        (ps.map InspectParam.name) ∧
      (∀ n, n ∈ signature_formatter.get_signature_params obj ↔
        ∃ p ∈ ps, p.kind ≠ ParamKind.varPositional ∧
          p.kind ≠ ParamKind.varKeyword ∧ p.name = n)) := by
  constructor
  · intro h
    simp [signature_formatter.get_signature_params, signature_formatter.format_signature, h]
  · intro ps h
    constructor
    · simp only [signature_formatter.get_signature_params, h]
      exact List.Sublist.map _ (List.filter_sublist _)
    · intro n
      simp [signature_formatter.get_signature_params, h, List.mem_filter,
        signature_formatter.keepParam, and_assoc]

/-- C7 witness: the theorem applied to an object without a signature and to an
object with variadic parameters. -/
theorem c7_signature_introspection_witness :
    (signature_formatter.get_signature_params c7_obj_nosig = [] ∧
     signature_formatter.format_signature c7_obj_nosig = c7_obj_nosig.name) ∧
    List.Sublist (signature_formatter.get_signature_params c7_obj_sig)
      (c7_params.map InspectParam.name) :=
  ⟨(c7_signature_introspection c7_obj_nosig).1 rfl,
   ((c7_signature_introspection c7_obj_sig).2 c7_params rfl).1⟩

/-- C8 counterexample: with the default configuration the claim includes a
privately named function defined in the module, but `collect_module_members`
— which takes no exclude-private flag at all — drops it unconditionally. -/
theorem c8_counterexample :
    collect_module_members
      { name := "m", doc := none, members := [("_hidden", c8_private_fn)] } =
      ([], []) := rfl

/-- C8 (amended): the collector keeps exactly the classes and functions whose
recorded defining module equals the scanned module, and underscore-prefixed
names are always excluded, independent of any configuration. -/
theorem c8_member_collection (m : PyModule) :
    (∀ pr ∈ (collect_module_members m).1,
      pr.2.module = some m.name ∧ pr.2.kind = PyKind.cls ∧
        startsWithUnderscore pr.1 = false) ∧
    (∀ pr ∈ (collect_module_members m).2,
      pr.2.module = some m.name ∧ pr.2.kind = PyKind.func ∧
        startsWithUnderscore pr.1 = false) ∧
    (∀ pr ∈ m.members, startsWithUnderscore pr.1 = false →
      pr.2.module = some m.name →
      (pr.2.kind = PyKind.cls → pr ∈ (collect_module_members m).1) ∧
      (pr.2.kind = PyKind.func → pr ∈ (collect_module_members m).2)) := by
  refine ⟨?_, ?_, ?_⟩
  · intro pr hpr
    simp only [collect_module_members, List.mem_filter, Bool.and_eq_true,
      Bool.not_eq_true', beq_iff_eq] at hpr
    exact ⟨hpr.1.2.2, hpr.2, hpr.1.2.1⟩
  · intro pr hpr
    simp only [collect_module_members, List.mem_filter, Bool.and_eq_true,
      Bool.not_eq_true', beq_iff_eq] at hpr
    exact ⟨hpr.1.2.2, hpr.2, hpr.1.2.1⟩
  · intro pr hpr hu hm
    constructor
    · intro hk
      simp only [collect_module_members, List.mem_filter, Bool.and_eq_true,
        Bool.not_eq_true', beq_iff_eq]
      exact ⟨⟨hpr, hu, hm⟩, hk⟩
    · intro hk
      simp only [collect_module_members, List.mem_filter, Bool.and_eq_true,
        Bool.not_eq_true', beq_iff_eq]
      exact ⟨⟨hpr, hu, hm⟩, hk⟩

/-- C8 witness: the amended collection theorem applied to a module with one
private and one public function. -/
theorem c8_member_collection_witness :
    ("visible", c8_public_fn) ∈ (collect_module_members c8_module).2 :=
  ((c8_member_collection c8_module).2.2 ("visible", c8_public_fn)
    (by decide) (by decide) rfl).2 rfl

/-- C9 counterexample: a module whose docstring parses with no `"Description"`
section has an absent description, yet the serialized module record still
carries a `description` key (with value `null`). -/
theorem c9_counterexample :
    (file_to_tsx_data (fun _ => Except.ok [("Returns", DocContent.text "int")])
      { name := "mod9", doc := some "ret only", members := [] } "mod9").description = none ∧
    "description" ∈ (moduleDataToJson (file_to_tsx_data
      (fun _ => Except.ok [("Returns", DocContent.text "int")])
      { name := "mod9", doc := some "ret only", members := [] } "mod9")).objKeys ∧
    Json.objLookup (moduleDataToJson (file_to_tsx_data
      (fun _ => Except.ok [("Returns", DocContent.text "int")])
      { name := "mod9", doc := some "ret only", members := [] } "mod9")) "description" =
      some Json.null := by
  refine ⟨rfl, ?_, rfl⟩
  simp [moduleDataToJson, Json.objKeys]

/-- C9 (amended): member records omit `description`/`params`/`sections`/
`source_code` from the serialized output when empty and a member description
is never the empty string; the module-level record's `description` key is
always serialized, as `null` when the description is absent. -/
theorem c9_optional_fields (parse : String → Except Unit ParsedDoc) (obj : PyObj)
    (md : MemberData) (mdta : ModuleData) :
    (∀ parsed : ParsedDoc, parse (obj.doc.getD "") = Except.ok parsed →
      parsed.find "Description" = none →
      (class_to_data parse obj).description = none) ∧
    (class_to_data parse obj).description ≠ some "" ∧
    (md.description = none → "description" ∉ (memberDataToJson md).objKeys) ∧
    (md.params = none → "params" ∉ (memberDataToJson md).objKeys) ∧
    (md.sections = none → "sections" ∉ (memberDataToJson md).objKeys) ∧
    (md.source_code = none → "source_code" ∉ (memberDataToJson md).objKeys) ∧
    "description" ∈ (moduleDataToJson mdta).objKeys ∧
    (mdta.description = none →
      Json.objLookup (moduleDataToJson mdta) "description" = some Json.null) := by
  obtain ⟨mn, mty, msg, msl, mde, mpa, mse, msc⟩ := md
  refine ⟨?_, ?_, ?_, ?_, ?_, ?_, ?_, ?_⟩
  · intro parsed h hfind
    simp [class_to_data, h, process_description, hfind, truthy]
  · simp only [class_to_data]
    split
    next h =>
      intro hcontra
      rw [hcontra] at h
      simp [truthy] at h
    next => simp
  · intro h
    subst h
    cases mpa <;> cases mse <;> cases msc <;>
      simp [memberDataToJson, Json.objKeys]
  · intro h
    subst h
    cases mde <;> cases mse <;> cases msc <;>
      simp [memberDataToJson, Json.objKeys]
  · intro h
    subst h
    cases mde <;> cases mpa <;> cases msc <;>
      simp [memberDataToJson, Json.objKeys]
  · intro h
    subst h
    cases mde <;> cases mpa <;> cases mse <;>
      simp [memberDataToJson, Json.objKeys]
  · simp [moduleDataToJson, Json.objKeys]
  · intro h
    simp [moduleDataToJson, Json.objLookup, h, optStrJson]

/-- C9 witness: the amended serialization theorem applied to a concrete
member and module record with the optional fields absent. -/
theorem c9_optional_fields_witness :
    (class_to_data c9_parse c9_obj).description = none ∧
    "description" ∉ (memberDataToJson c9_md).objKeys ∧
    Json.objLookup (moduleDataToJson c9_mdta) "description" = some Json.null :=
  ⟨(c9_optional_fields c9_parse c9_obj c9_md c9_mdta).1
      [("Returns", DocContent.text "int")] rfl rfl,
   (c9_optional_fields c9_parse c9_obj c9_md c9_mdta).2.2.1 rfl,
   (c9_optional_fields c9_parse c9_obj c9_md c9_mdta).2.2.2.2.2.2.2 rfl⟩

/-- C10: an object without `__code__` gets source line 1 — classes in
particular, having no `__code__`, always get exactly 1 — and the emitted
`source_line` is `get_source_line`'s value, positive whenever every real
`co_firstlineno` is. -/
theorem c10_source_line (parse : String → Except Unit ParsedDoc) (obj : PyObj)
    (hpos : ∀ n, obj.code = some n → 0 < n) :
    (obj.code = none → get_source_line obj = 1 ∧
      (class_to_data parse obj).source_line = 1) ∧
    0 < (class_to_data parse obj).source_line ∧
    (class_to_data parse obj).source_line = get_source_line obj := by
  have hsl : (class_to_data parse obj).source_line = get_source_line obj := by
    simp [class_to_data]
  refine ⟨?_, ?_, hsl⟩
  · intro h
    have h1 : get_source_line obj = 1 := by simp [get_source_line, h]
    exact ⟨h1, by rw [hsl, h1]⟩
  · rw [hsl]
    cases hc : obj.code with
    | none => simp [get_source_line, hc]
    | some n =>
      simpa [get_source_line, hc] using hpos n hc

/-- C10 witness: the theorem applied to a class object (no `__code__`). -/
theorem c10_source_line_witness :
    get_source_line c10_class_obj = 1 ∧
    (class_to_data (fun _ => Except.ok []) c10_class_obj).source_line = 1 :=
  (c10_source_line (fun _ => Except.ok []) c10_class_obj
    (fun n h => by cases h)).1 rfl
